import Mathlib

/-!
Verification development for the PennyWise dashboard component
(src/frontend/src/components/Dashboard.tsx).

The component is shallowly embedded: JavaScript numbers are modelled as
exact rationals extended with NaN and the two infinities (JSNum), the
React component state (data, loading, error) becomes an explicit record,
the asynchronous fetch handlers become state-transition functions, and
the JSX render becomes a function from states to an abstract View type.
-/

namespace PennyWise

/-- Model of a JavaScript number: an exact rational, NaN, or an infinity.
Binary64 rounding is abstracted away (all values of interest are exactly
representable); the sign of zero is not modelled. -/
inductive JSNum where
  | nan : JSNum
  | inf : JSNum
  | negInf : JSNum
  | num : ℚ → JSNum
deriving DecidableEq

namespace JSNum

/-- JavaScript addition on the JSNum model. -/
def add : JSNum → JSNum → JSNum
  | nan, _ => nan
  | _, nan => nan
  | inf, negInf => nan
  | negInf, inf => nan
  | inf, _ => inf
  | _, inf => inf
  | negInf, _ => negInf
  | _, negInf => negInf
  | num a, num b => num (a + b)

/-- JavaScript unary negation on the JSNum model. -/
def neg : JSNum → JSNum
  | nan => nan
  | inf => negInf
  | negInf => inf
  | num a => num (-a)

/-- JavaScript subtraction on the JSNum model. -/
def sub (x y : JSNum) : JSNum := add x (neg y)

/-- JavaScript multiplication on the JSNum model. -/
def mul : JSNum → JSNum → JSNum
  | nan, _ => nan
  | _, nan => nan
  | inf, inf => inf
  | inf, negInf => negInf
  | negInf, inf => negInf
  | negInf, negInf => inf
  | inf, num b => if 0 < b then inf else if b < 0 then negInf else nan
  | num a, inf => if 0 < a then inf else if a < 0 then negInf else nan
  | negInf, num b => if 0 < b then negInf else if b < 0 then inf else nan
  | num a, negInf => if 0 < a then negInf else if a < 0 then inf else nan
  | num a, num b => num (a * b)

/-- JavaScript division on the JSNum model: division by zero yields an
infinity for a nonzero dividend and NaN for 0 / 0. -/
def div : JSNum → JSNum → JSNum
  | nan, _ => nan
  | _, nan => nan
  | inf, inf => nan
  | inf, negInf => nan
  | negInf, inf => nan
  | negInf, negInf => nan
  | inf, num b => if 0 ≤ b then inf else negInf
  | negInf, num b => if 0 ≤ b then negInf else inf
  | num _, inf => num 0
  | num _, negInf => num 0
  | num a, num b =>
      if b = 0 then
        if a = 0 then nan else if 0 < a then inf else negInf
      else num (a / b)

/-- JavaScript strict equality (triple equals) between two numbers:
false whenever either side is NaN, value comparison otherwise. -/
def jsEq : JSNum → JSNum → Bool
  | num a, num b => a = b
  | inf, inf => true
  | negInf, negInf => true
  | _, _ => false

end JSNum

/-- One entry of daily_breakdown (Dashboard.tsx lines 15 to 20). -/
structure DailyEntry where
  date : String
  cost : JSNum
  requests : JSNum
  saved : JSNum
deriving DecidableEq

/-- One entry of provider_breakdown (Dashboard.tsx lines 21 to 25). -/
structure ProviderEntry where
  provider : String
  cost : JSNum
  requests : JSNum
deriving DecidableEq

/-- One entry of top_users (Dashboard.tsx lines 26 to 30). -/
structure UserEntry where
  user_id : String
  cost : JSNum
  requests : JSNum
deriving DecidableEq

/-- The SummaryData payload shape (Dashboard.tsx lines 9 to 31),
called RawSummary in the specification. -/
structure RawSummary where
  total_requests : JSNum
  total_cost : JSNum
  cost_saved : JSNum
  cache_hit_rate : JSNum
  avg_cost_per_request : JSNum
  daily_breakdown : List DailyEntry
  provider_breakdown : List ProviderEntry
  top_users : List UserEntry
deriving DecidableEq

/-- The monthly fee hard-coded in the ROI calculator
(Dashboard.tsx lines 379, 385, 388): 99 dollars per month. -/
def monthlyFee : JSNum := JSNum.num 99

/-- Dashboard.tsx line 111:
savingsRate = (data.cost_saved / (data.total_cost + data.cost_saved)) * 100. -/
def savingsRate (d : RawSummary) : JSNum :=
  JSNum.mul (JSNum.div d.cost_saved (JSNum.add d.total_cost d.cost_saved)) (JSNum.num 100)

/-- Dashboard.tsx line 182: data.total_requests / 30, the per-day average
shown on the Total Requests card. -/
def requestsPerDayAvg (d : RawSummary) : JSNum :=
  JSNum.div d.total_requests (JSNum.num 30)

/-- Dashboard.tsx line 373: data.cost_saved * 12, the annual projection. -/
def annualProjection (d : RawSummary) : JSNum :=
  JSNum.mul d.cost_saved (JSNum.num 12)

/-- Dashboard.tsx line 385: data.cost_saved * 12 - 99 * 12, the net savings. -/
def netAnnualSavings (d : RawSummary) : JSNum :=
  JSNum.sub (JSNum.mul d.cost_saved (JSNum.num 12))
    (JSNum.mul (JSNum.num 99) (JSNum.num 12))

/-- Dashboard.tsx line 388:
(data.cost_saved * 12 - 99 * 12) / (99 * 12), the ROI multiple. -/
def roiMultiple (d : RawSummary) : JSNum :=
  JSNum.div
    (JSNum.sub (JSNum.mul d.cost_saved (JSNum.num 12))
      (JSNum.mul (JSNum.num 99) (JSNum.num 12)))
    (JSNum.mul (JSNum.num 99) (JSNum.num 12))

/-! ## Component state and fetch lifecycle (shape-correct payloads)

Dashboard.tsx lines 34 to 36 hold the component state:
data : SummaryData | null, loading : boolean, error : string | null.
The specification calls this triple RefreshState. -/

/-- The React component state (Dashboard.tsx lines 34 to 36), with the
payload restricted to shape-correct SummaryData as the TypeScript type
declares. -/
structure RefreshState where
  data : Option RawSummary
  loading : Bool
  error : Option String
deriving DecidableEq

/-- The state at component mount (Dashboard.tsx lines 34 to 36):
data = null, loading = true, error = null. -/
def mountState : RefreshState := ⟨none, true, none⟩

/-- Effect of entering fetchData (Dashboard.tsx line 40): setLoading(true).
No other field is touched at the start of a fetch. -/
def startFetch (s : RefreshState) : RefreshState := { s with loading := true }

/-- Abstract outcome of one fetch, as seen by the handlers of fetchData:
either a shape-correct payload was obtained, or some failure occurred and
was caught with the given message. -/
inductive FetchOutcome where
  | ok : RawSummary → FetchOutcome
  | fail : String → FetchOutcome
deriving DecidableEq

/-- Effect of a fetch completing (Dashboard.tsx lines 41 to 50): on
success setData(result) and setError(null); on any caught failure
setError(message) with data untouched; in both cases the finally block
runs setLoading(false). -/
def fetchApply (s : RefreshState) : FetchOutcome → RefreshState
  | FetchOutcome.ok r => { s with data := some r, error := none, loading := false }
  | FetchOutcome.fail m => { s with error := some m, loading := false }

/-- The fetch-lifecycle phase the specification ascribes to a component
state: Loading while a fetch is in flight, Error when the last completed
fetch failed, Ready otherwise. -/
inductive Phase where
  | loading : Phase
  | error : Phase
  | ready : Phase
deriving DecidableEq

/-- Phase of a component state: loading has priority (a fetch is in
flight), then a recorded error, else ready. -/
def phase (s : RefreshState) : Phase :=
  if s.loading then Phase.loading
  else if s.error.isSome then Phase.error
  else Phase.ready

/-- States reachable by the refresh cycle from the mount state: any
interleaving of fetch starts (initial effect, poll ticks, manual refresh,
retry) and fetch completions. -/
inductive Reach : RefreshState → Prop where
  | init : Reach mountState
  | step_start {s : RefreshState} : Reach s → Reach (startFetch s)
  | step_done {s : RefreshState} (o : FetchOutcome) :
      Reach s → Reach (fetchApply s o)

/-! ## Render model

Dashboard.tsx lines 68 to 111: the early returns of the component body,
in source order. The dashboard branch carries the derived metrics it
displays; the error branch carries only the message (lines 76 to 91
render the message and a retry button, no snapshot fields). -/

/-- Abstract view produced by the component body. -/
inductive View where
  | loadingScreen : View
  | errorScreen : String → View
  | welcomeScreen : View
  | dashboard : JSNum → JSNum → JSNum → JSNum → JSNum → View
deriving DecidableEq

/-- The render function (Dashboard.tsx lines 68 to 392): the early
returns in source order, then the full dashboard with its derived
metrics (savings rate, per-day average, annual projection, net annual
savings, ROI multiple). -/
def render (s : RefreshState) : View :=
  if s.loading && s.data.isNone then View.loadingScreen
  else
    match s.error with
    | some m => View.errorScreen m
    | none =>
      match s.data with
      | none => View.welcomeScreen
      | some r =>
        if JSNum.jsEq r.total_requests (JSNum.num 0) then View.welcomeScreen
        else
          View.dashboard (savingsRate r) (requestsPerDayAvg r)
            (annualProjection r) (netAnnualSavings r) (roiMultiple r)

/-! ## Fetch handling with untyped bodies

fetchData (Dashboard.tsx lines 38 to 51) checks response.ok and that the
body parses as JSON, but never checks that the parsed value has the
SummaryData shape. To state that, the body is modelled as an untyped
JSON value. -/

/-- A syntactically valid JSON value: either one matching RawSummary
shape, or any other well-formed JSON value. -/
inductive JsonValue where
  | summary : RawSummary → JsonValue
  | other : JsonValue
deriving DecidableEq

/-- Result of reading the response body with response.json(). -/
inductive BodyResult where
  | parseFail : String → BodyResult
  | parsed : JsonValue → BodyResult
deriving DecidableEq

/-- Outcome of the network fetch in fetchData: the promise rejects
(transport failure), or a response arrives with an ok flag and a body. -/
inductive WireOutcome where
  | transportFail : String → WireOutcome
  | httpResponse : Bool → BodyResult → WireOutcome
deriving DecidableEq

/-- Component state with an untyped payload, for reasoning about what
fetchData actually stores. -/
structure FState where
  data : Option JsonValue
  loading : Bool
  error : Option String
deriving DecidableEq

/-- fetchData (Dashboard.tsx lines 38 to 51) applied to a wire outcome:
a transport rejection is caught with its message; a response with
ok = false raises and is caught as the literal message on line 42; a
body that fails to parse as JSON is caught with the parse message; any
parsed JSON value, whatever its shape, is stored via setData with the
error cleared. The finally block sets loading false in every case. -/
def fetchDataF (s : FState) : WireOutcome → FState
  | WireOutcome.transportFail m => { s with error := some m, loading := false }
  | WireOutcome.httpResponse false _ =>
      { s with error := some "Failed to fetch data", loading := false }
  | WireOutcome.httpResponse true (BodyResult.parseFail m) =>
      { s with error := some m, loading := false }
  | WireOutcome.httpResponse true (BodyResult.parsed v) =>
      { s with data := some v, error := none, loading := false }

/-- True on the wire outcomes that make fetchData take a catch path:
transport failure, non-ok HTTP status, or a body that is not valid
JSON. A parsed body of the wrong shape is not among them. -/
def wireFails : WireOutcome → Bool
  | WireOutcome.transportFail _ => true
  | WireOutcome.httpResponse ok body =>
      !ok || (match body with
              | BodyResult.parseFail _ => true
              | BodyResult.parsed _ => false)

/-! ## Demo seed

generateDemoData (Dashboard.tsx lines 53 to 60): a try block that awaits
the POST to /v1/demo-data, then awaits fetchData(); the catch sets the
error string. fetchData never rejects (it catches internally), so the
catch fires exactly when the seed fetch rejects. fetch() does not reject
on a non-2xx status, and the ok flag of the seed response is never read. -/

/-- Outcome of the seed POST as a promise: rejected (transport failure)
or resolved, carrying the ok flag that the code never inspects. -/
inductive SeedOutcome where
  | rejected : SeedOutcome
  | resolved : Bool → SeedOutcome
deriving DecidableEq

/-- generateDemoData (Dashboard.tsx lines 53 to 60) as a function of the
seed outcome and, when the re-fetch runs, the wire outcome of that
fetch. The Bool records whether fetchData was invoked. -/
def generateDemoData (s : FState) : SeedOutcome → WireOutcome → FState × Bool
  | SeedOutcome.rejected, _ =>
      ({ s with error := some "Failed to generate demo data" }, false)
  | SeedOutcome.resolved _, w =>
      (fetchDataF { s with loading := true } w, true)

/-! ## Overlapping fetches

fetchData carries no request token, abort controller, or staleness
check: the handlers of every invocation run setData and setError when the
response arrives, regardless of any newer request issued meanwhile.
Requests are numbered by issue order and a successful response is
identified with its request number, so that the trace semantics records
which response each setData call applied. -/

/-- State of the race model: how many requests were issued, the request
numbers whose responses were applied by setData in arrival order, and
the request number of the currently displayed snapshot. -/
structure CState where
  issued : ℕ
  applied : List ℕ
  data : Option ℕ
  loading : Bool
  error : Option String
deriving DecidableEq

/-- One event of an execution: a fetchData invocation starts (initial
effect, poll tick, or manual refresh), or the response of request i
arrives successfully. -/
inductive CEvent where
  | issue : CEvent
  | arriveOk : ℕ → CEvent
deriving DecidableEq

/-- Event semantics of fetchData (Dashboard.tsx lines 38 to 51): an
invocation sets loading and issues the next request; an arriving
successful response is applied unconditionally (setData, setError(null),
setLoading(false)), because the code has no staleness check. -/
def cstep (s : CState) : CEvent → CState
  | CEvent.issue => { s with issued := s.issued + 1, loading := true }
  | CEvent.arriveOk i =>
      { s with data := some i, applied := s.applied ++ [i],
               error := none, loading := false }

/-- Initial state of the race model: nothing issued, nothing applied. -/
def cinit : CState := ⟨0, [], none, false, none⟩

/-- Run a trace of events from a state. -/
def crun (s : CState) : List CEvent → CState
  | [] => s
  | e :: es => crun (cstep s e) es

/-- A trace is well formed when every arriving response belongs to a
request that was already issued and no response arrives twice. -/
def cwf : ℕ → List ℕ → List CEvent → Bool
  | _, _, [] => true
  | n, seen, CEvent.issue :: es => cwf (n + 1) seen es
  | n, seen, CEvent.arriveOk i :: es =>
      decide (i < n) && !(seen.contains i) && cwf n (i :: seen) es

/-- The interleaving in which a refresh is issued while the first fetch
is in flight, the newer response arrives first, and the older response
arrives last. -/
def raceTrace : List CEvent :=
  [CEvent.issue, CEvent.issue, CEvent.arriveOk 1, CEvent.arriveOk 0]

/-! ## Teardown

The mount effect (Dashboard.tsx lines 62 to 66) arms a 10 second
interval and its cleanup calls clearInterval. React discards state
updates dispatched to an unmounted component, so a fetch resolving after
unmount finds its setState calls without effect. -/

/-- Component state together with the React mount flag and whether the
poll interval is armed. -/
structure MountedState where
  st : RefreshState
  mounted : Bool
  timerArmed : Bool
deriving DecidableEq

/-- React runtime guard: a state update is applied only while the
component is mounted; updates dispatched after unmount are discarded. -/
def dispatch (m : MountedState) (f : RefreshState → RefreshState) : MountedState :=
  if m.mounted then { m with st := f m.st } else m

/-- The effect cleanup (Dashboard.tsx line 65): clearInterval disarms
the poll timer, and React marks the component unmounted. -/
def teardown (m : MountedState) : MountedState :=
  { m with mounted := false, timerArmed := false }

/-- A fetch that was in flight at teardown resolving later: its handlers
run setData or setError through the runtime guard. -/
def lateResolve (m : MountedState) (o : FetchOutcome) : MountedState :=
  dispatch m (fun s => fetchApply s o)

/-! ## Concrete example payloads and states -/

/-- A concrete summary payload: 12000 requests, 100 dollars spent,
300 dollars saved. -/
def rEx : RawSummary :=
  ⟨JSNum.num 12000, JSNum.num 100, JSNum.num 300, JSNum.num 75,
   JSNum.num 0, [], [], []⟩

/-- A concrete summary payload with zero cost and zero savings. -/
def rZero : RawSummary :=
  ⟨JSNum.num 5, JSNum.num 0, JSNum.num 0, JSNum.num 0,
   JSNum.num 0, [], [], []⟩

/-- A concrete summary payload with zero total requests. -/
def rEmpty : RawSummary :=
  ⟨JSNum.num 0, JSNum.num 0, JSNum.num 0, JSNum.num 0,
   JSNum.num 0, [], [], []⟩

/-- The state reached by a successful initial fetch of rEx, a new fetch
start, and a failing completion of that fetch. -/
def sAfterFailure : RefreshState :=
  fetchApply (startFetch (fetchApply mountState (FetchOutcome.ok rEx)))
    (FetchOutcome.fail "Failed to fetch data")

/-! ## Theorems -/

/-- C3: for every RawSummary whose cost fields are finite nonnegative
numbers, savingsRate equals cost_saved / (total_cost + cost_saved) * 100
as exact rational arithmetic whenever the two are not both zero, and
equals NaN when both are zero; the derivation is a total function, so it
never throws, and NaN is the sentinel the specification documents. -/
theorem c3_savings_rate_formula (a b : ℚ) (d : RawSummary)
    (ha : d.total_cost = JSNum.num a) (hb : d.cost_saved = JSNum.num b)
    (ha0 : 0 ≤ a) (hb0 : 0 ≤ b) :
    (¬(a = 0 ∧ b = 0) → savingsRate d = JSNum.num (b / (a + b) * 100))
    ∧ ((a = 0 ∧ b = 0) → savingsRate d = JSNum.nan) := by
  constructor
  · intro h
    have hab : a + b ≠ 0 := by
      intro hs
      exact h ⟨le_antisymm (by linarith) ha0, le_antisymm (by linarith) hb0⟩
    simp [savingsRate, ha, hb, JSNum.add, JSNum.div, JSNum.mul, hab]
  · rintro ⟨h1, h2⟩
    simp [savingsRate, ha, hb, h1, h2, JSNum.add, JSNum.div, JSNum.mul]

/-- Witness for C3: the payload with zero cost and zero savings yields
the NaN sentinel. -/
theorem c3_witness : savingsRate rZero = JSNum.nan :=
  (c3_savings_rate_formula 0 0 rZero rfl rfl le_rfl le_rfl).2 ⟨rfl, rfl⟩

/-- C4: for every RawSummary with a finite total_requests count n, the
per-day average is exactly n / 30, independent of the daily_breakdown
list; in particular 12000 requests yield 400. -/
theorem c4_fixed_divisor (n : ℚ) (d : RawSummary)
    (h : d.total_requests = JSNum.num n) :
    requestsPerDayAvg d = JSNum.num (n / 30)
    ∧ (∀ l : List DailyEntry,
        requestsPerDayAvg { d with daily_breakdown := l } = requestsPerDayAvg d)
    ∧ (n = 12000 → requestsPerDayAvg d = JSNum.num 400) := by
  refine ⟨?_, ?_, ?_⟩
  · simp [requestsPerDayAvg, h, JSNum.div]
  · intro l
    simp [requestsPerDayAvg]
  · intro hn
    subst hn
    simp [requestsPerDayAvg, h, JSNum.div]
    norm_num

/-- Witness for C4: the example payload with 12000 requests averages
400 per day. -/
theorem c4_witness : requestsPerDayAvg rEx = JSNum.num 400 :=
  (c4_fixed_divisor 12000 rEx rfl).2.2 rfl

/-- C5: the monthly fee is the constant 99 and, for every RawSummary
with a finite cost_saved c, the ROI block satisfies
annualProjection = cost_saved * 12,
netAnnualSavings = annualProjection - monthlyFee * 12, and
roiMultiple = netAnnualSavings / (monthlyFee * 12), with the exact
rational values c * 12, c * 12 - 99 * 12 and their quotient; the
divisor 99 * 12 is positive. -/
theorem c5_roi_consistency (c : ℚ) (d : RawSummary)
    (h : d.cost_saved = JSNum.num c) :
    monthlyFee = JSNum.num 99
    ∧ annualProjection d = JSNum.num (c * 12)
    ∧ netAnnualSavings d =
        JSNum.sub (annualProjection d) (JSNum.mul monthlyFee (JSNum.num 12))
    ∧ roiMultiple d =
        JSNum.div (netAnnualSavings d) (JSNum.mul monthlyFee (JSNum.num 12))
    ∧ netAnnualSavings d = JSNum.num (c * 12 - 99 * 12)
    ∧ roiMultiple d = JSNum.num ((c * 12 - 99 * 12) / (99 * 12))
    ∧ (0 : ℚ) < 99 * 12 := by
  refine ⟨rfl, ?_, rfl, rfl, ?_, ?_, by norm_num⟩
  · simp [annualProjection, h, JSNum.mul]
  · simp [netAnnualSavings, h, JSNum.mul, JSNum.sub, JSNum.add, JSNum.neg]
    ring
  · have h12 : ((99 : ℚ) * 12) ≠ 0 := by norm_num
    simp [roiMultiple, h, JSNum.mul, JSNum.sub, JSNum.add, JSNum.neg, JSNum.div, h12]
    ring_nf

/-- Witness for C5: the example payload with 300 dollars saved projects
3600 annually, 2412 net, and a 2412 / 1188 ROI multiple. -/
theorem c5_witness :
    annualProjection rEx = JSNum.num (300 * 12)
    ∧ netAnnualSavings rEx = JSNum.num (300 * 12 - 99 * 12) :=
  ⟨(c5_roi_consistency 300 rEx rfl).2.1,
   (c5_roi_consistency 300 rEx rfl).2.2.2.2.1⟩

/-- C9: in every state reachable by the refresh cycle from the mount
state, phase Ready implies a present snapshot, and there is a reachable
state whose phase is Loading while a snapshot is present. -/
theorem c9_ready_invariant (s : RefreshState) (h : Reach s) :
    (phase s = Phase.ready → s.data.isSome = true)
    ∧ (∃ t : RefreshState, Reach t ∧ phase t = Phase.loading ∧ t.data.isSome = true) := by
  constructor
  · induction h with
    | init =>
      intro hp
      simp [phase, mountState] at hp
    | step_start h ih =>
      intro hp
      simp [phase, startFetch] at hp
    | step_done o h ih =>
      cases o with
      | ok r =>
        intro _
        simp [fetchApply]
      | fail m =>
        intro hp
        simp [phase, fetchApply] at hp
  · refine ⟨startFetch (fetchApply mountState (FetchOutcome.ok rEx)),
      Reach.step_start (Reach.step_done _ Reach.init), ?_, ?_⟩
    · simp [phase, startFetch]
    · simp [startFetch, fetchApply]

/-- Witness for C9: the invariant instantiated at the concrete reachable
state produced by one successful fetch from the mount state. -/
theorem c9_witness :
    (phase (fetchApply mountState (FetchOutcome.ok rEx)) = Phase.ready →
      (fetchApply mountState (FetchOutcome.ok rEx)).data.isSome = true)
    ∧ (∃ t : RefreshState, Reach t ∧ phase t = Phase.loading ∧ t.data.isSome = true) :=
  c9_ready_invariant _ (Reach.step_done _ Reach.init)

/-- C10: for every successfully fetched payload with zero total
requests, the component renders the welcome screen (whether or not a
fetch is in flight), never the dashboard, and that render is identical
to the render of the no-snapshot state with the same loading and error
fields — the empty snapshot is indistinguishable from no snapshot. -/
theorem c10_empty_snapshot (r : RawSummary)
    (h : r.total_requests = JSNum.num 0) :
    (∀ b : Bool, render ⟨some r, b, none⟩ = View.welcomeScreen)
    ∧ render ⟨none, false, none⟩ = View.welcomeScreen
    ∧ render ⟨some r, false, none⟩ = render ⟨none, false, none⟩ := by
  refine ⟨?_, ?_, ?_⟩
  · intro b
    simp [render, h, JSNum.jsEq]
  · simp [render]
  · simp [render, h, JSNum.jsEq]

/-- Witness for C10: the concrete zero-request payload renders the
welcome screen and matches the no-snapshot render. -/
theorem c10_witness :
    (∀ b : Bool, render ⟨some rEmpty, b, none⟩ = View.welcomeScreen)
    ∧ render ⟨none, false, none⟩ = View.welcomeScreen
    ∧ render ⟨some rEmpty, false, none⟩ = render ⟨none, false, none⟩ :=
  c10_empty_snapshot rEmpty rfl

/-- C2, counterexample: after a successful fetch of rEx followed by a
failing fetch, the state still holds the snapshot and the phase is
Error, yet the render is the failure-only error screen (the View
constructor from Dashboard.tsx lines 76 to 91, which shows only the
message and a retry button), not the dashboard of the retained
snapshot — so the stale data is not visible, contrary to the claim. -/
theorem c2_counterexample :
    sAfterFailure.data = some rEx
    ∧ phase sAfterFailure = Phase.error
    ∧ render sAfterFailure = View.errorScreen "Failed to fetch data"
    ∧ render sAfterFailure ≠
        View.dashboard (savingsRate rEx) (requestsPerDayAvg rEx)
          (annualProjection rEx) (netAnnualSavings rEx) (roiMultiple rEx) := by
  refine ⟨rfl, rfl, ?_, ?_⟩
  · simp [sAfterFailure, render, fetchApply, startFetch, mountState]
  · simp [sAfterFailure, render, fetchApply, startFetch, mountState]

/-- C2 as amended: for every state holding a snapshot, a fetch that then
fails leaves the snapshot in the state and moves the phase to Error, but
the component renders the failure-only error screen in place of the
dashboard, so the stale data is not visible alongside the error. -/
theorem c2_stale_snapshot_hidden (s : RefreshState) (r : RawSummary) (m : String)
    (h : s.data = some r) :
    (fetchApply (startFetch s) (FetchOutcome.fail m)).data = some r
    ∧ phase (fetchApply (startFetch s) (FetchOutcome.fail m)) = Phase.error
    ∧ render (fetchApply (startFetch s) (FetchOutcome.fail m)) = View.errorScreen m := by
  refine ⟨?_, ?_, ?_⟩
  · simp [fetchApply, startFetch, h]
  · simp [phase, fetchApply]
  · simp [render, fetchApply, startFetch, h]

/-- Witness for the amended C2: instantiated after a successful fetch of
the example payload, with failure message boom. -/
theorem c2_witness :
    (fetchApply (startFetch (fetchApply mountState (FetchOutcome.ok rEx)))
      (FetchOutcome.fail "boom")).data = some rEx
    ∧ phase (fetchApply (startFetch (fetchApply mountState (FetchOutcome.ok rEx)))
        (FetchOutcome.fail "boom")) = Phase.error
    ∧ render (fetchApply (startFetch (fetchApply mountState (FetchOutcome.ok rEx)))
        (FetchOutcome.fail "boom")) = View.errorScreen "boom" :=
  c2_stale_snapshot_hidden (fetchApply mountState (FetchOutcome.ok rEx)) rEx "boom" rfl

/-- C7, counterexample: a 2xx response whose body is syntactically valid
JSON of the wrong shape is stored by setData as a successful snapshot
with the error cleared — fetchData does not fail on a shape mismatch,
contrary to the claim. -/
theorem c7_counterexample :
    fetchDataF ⟨none, true, none⟩
      (WireOutcome.httpResponse true (BodyResult.parsed JsonValue.other))
      = ⟨some JsonValue.other, false, none⟩ := rfl

/-- C7 as amended: fetchData fails (records an error and leaves the
snapshot unchanged) exactly when the transport fails, the HTTP status is
non-ok, or the body is not syntactically valid JSON; every response that
is ok with a syntactically valid JSON body — of RawSummary shape or
not — is applied as the snapshot with the error cleared. -/
theorem c7_fetch_failure_cases (s : FState) (w : WireOutcome) :
    (wireFails w = true →
      (fetchDataF s w).error.isSome = true ∧ (fetchDataF s w).data = s.data)
    ∧ (wireFails w = false →
      ∃ v : JsonValue, w = WireOutcome.httpResponse true (BodyResult.parsed v)
        ∧ fetchDataF s w = ⟨some v, false, none⟩) := by
  cases w with
  | transportFail m =>
    exact ⟨fun _ => ⟨rfl, rfl⟩, fun hf => by simp [wireFails] at hf⟩
  | httpResponse ok body =>
    cases ok with
    | false =>
      exact ⟨fun _ => ⟨rfl, rfl⟩, fun hf => by simp [wireFails] at hf⟩
    | true =>
      cases body with
      | parseFail m =>
        exact ⟨fun _ => ⟨rfl, rfl⟩, fun hf => by simp [wireFails] at hf⟩
      | parsed v =>
        refine ⟨fun hf => by simp [wireFails] at hf, fun _ => ⟨v, rfl, rfl⟩⟩

/-- Witness for the amended C7: a concrete transport failure records an
error and leaves the snapshot unchanged. -/
theorem c7_witness :
    (fetchDataF ⟨none, true, none⟩
      (WireOutcome.transportFail "Failed to fetch")).error.isSome = true
    ∧ (fetchDataF ⟨none, true, none⟩
        (WireOutcome.transportFail "Failed to fetch")).data
      = (FState.mk none true none).data :=
  (c7_fetch_failure_cases ⟨none, true, none⟩
    (WireOutcome.transportFail "Failed to fetch")).1 rfl

/-- C6, counterexample: when the seed POST rejects, generateDemoData
does not invoke fetchData at all (the second component is false) — the
re-fetch is not unconditional, contrary to the claim. -/
theorem c6_counterexample :
    generateDemoData ⟨none, false, none⟩ SeedOutcome.rejected
      (WireOutcome.httpResponse true (BodyResult.parsed JsonValue.other))
      = (⟨none, false, some "Failed to generate demo data"⟩, false) := rfl

/-- C6 as amended: generateDemoData re-fetches the summary whenever the
seed POST resolves, even with a non-2xx status that is never checked;
when the seed POST rejects, the re-fetch is skipped, the snapshot is
unchanged, and the recorded error is the fixed demo-seed message, which
differs from the fetch-failure message. -/
theorem c6_demo_seed_paths (s : FState) (w : WireOutcome) (ok : Bool) :
    (generateDemoData s (SeedOutcome.resolved ok) w).2 = true
    ∧ (generateDemoData s SeedOutcome.rejected w).2 = false
    ∧ (generateDemoData s SeedOutcome.rejected w).1.error
        = some "Failed to generate demo data"
    ∧ (generateDemoData s SeedOutcome.rejected w).1.data = s.data
    ∧ "Failed to generate demo data" ≠ "Failed to fetch data" := by
  refine ⟨rfl, rfl, rfl, rfl, by decide⟩

/-- C1: the well-formed interleaving in which a second fetch is issued
while the first is in flight, the response of the newer request 1
arrives first and the response of the older request 0 arrives last:
fetchData applies both responses (applied list of length two) and the
retained snapshot is that of the older request 0, not of the most
recently issued request 1 — the race the specification forbids. -/
theorem c1_race_eval :
    cwf 0 [] raceTrace = true
    ∧ (crun cinit raceTrace).applied = [1, 0]
    ∧ (crun cinit raceTrace).data = some 0
    ∧ (crun cinit raceTrace).data ≠ some 1 := by decide

/-- C8: after teardown the poll timer is disarmed, the component is
unmounted, a late resolution of an in-flight fetch leaves the state
unchanged, and no dispatched update whatsoever changes the torn-down
state. -/
theorem c8_teardown_discards (m : MountedState) (o : FetchOutcome) :
    (teardown m).timerArmed = false
    ∧ (teardown m).mounted = false
    ∧ lateResolve (teardown m) o = teardown m
    ∧ (∀ f : RefreshState → RefreshState, dispatch (teardown m) f = teardown m) := by
  refine ⟨rfl, rfl, ?_, ?_⟩
  · simp [lateResolve, dispatch, teardown]
  · intro f
    simp [dispatch, teardown]

end PennyWise
